import Mathlib

/-!
Pacemaker: `cibmon` replica synchronisation and `crmadmin` request/reply correlation.

A shallow embedding of `daemons/based/cibmon.c` (`cibmon_diff`) and of
`tools/crmadmin.c` (`do_init`, `do_work`, `validate_crm_message`,
`admin_msg_callback`, `admin_message_timeout`,
`crmadmin_ipc_connection_destroy` and the tail of `main`).

Process-wide C variables become fields of an explicit state record.  Calls into
libraries that are not part of the sources (the CIB client, GLib, libxml
accessors) are represented by the values they hand back, supplied by the caller
of each definition, and by an append-only record of the calls made.
-/

namespace Pacemaker

/-! ## Shared declarations -/

/-- An XML tree (`xmlNode *` that is not `NULL`), kept opaque: the programs
only pass documents around and hand them to library routines. -/
structure xmlNode where
  text : String
deriving DecidableEq, Repr

/-- Modelled from the spec: the success threshold `pcmk_ok` of
`crm/common/results.h` (not among the sources); return codes below it signal
failure. -/
def pcmk_ok : Int := 0

/-- The `errno.h` value of `EACCES` (permission denied) on Linux. -/
def EACCES : Int := 13

/-- The `errno.h` value of `ENOTCONN` (not connected) on Linux. -/
def ENOTCONN : Int := 107

/-- Modelled from the spec: the enumerators of `crm_exit_t`
(`crm/common/results.h`, not among the sources) that the two programs name.
Distinct enumerators are distinct exit statuses. -/
inductive crm_exit_t where
  | CRM_EX_OK
  | CRM_EX_ERROR
  | CRM_EX_USAGE
  | CRM_EX_UNAVAILABLE
  | CRM_EX_TIMEOUT
  | CRM_EX_DISCONNECT
  | CRM_EX_INSUFFICIENT_PRIV
deriving DecidableEq, Repr

/-- Syslog priorities used by the logging calls. -/
inductive LogLevel where
  | LOG_ERR
  | LOG_WARNING
  | LOG_INFO
  | LOG_DEBUG
  | LOG_TRACE
deriving DecidableEq, Repr

/-! ## `cibmon.c` -/

/-- A notification message (`xmlNode *msg`, not `NULL`) as `cibmon_diff` reads
it: `cib_rc` is what `crm_element_value_int(msg, F_CIB_RC, &rc)` stores
(`none`: the attribute is missing and `rc` keeps its initial value),
`cib_op` is `crm_element_value(msg, F_CIB_OPERATION)`, `cib_update` is
`get_message_xml(msg, F_CIB_UPDATE)` and `cib_update_result` is
`get_message_xml(msg, F_CIB_UPDATE_RESULT)`. -/
structure NotifyMsg where
  cib_rc : Option Int
  cib_op : Option String
  cib_update : Option xmlNode
  cib_update_result : Option xmlNode
deriving DecidableEq, Repr

/-- The value of `rc` after `int rc = -1; crm_element_value_int(msg, F_CIB_RC, &rc);`:
the status code `cibmon_diff` tests against `pcmk_ok`. -/
def NotifyMsg.status (m : NotifyMsg) : Int := m.cib_rc.getD (-1)

/-- What the CIB library does when `cibmon_diff` calls into it:
`cib_process_diff op diff base` gives the return code and the document left in
`*result_cib`; `query` gives the return code and the document left in
`*output_data` by `cib->cmds->query(cib, NULL, &cib_copy, cib_scope_local | cib_sync_call)`. -/
structure CibCalls where
  cib_process_diff : Option String → Option xmlNode → xmlNode → Int × Option xmlNode
  query : Int × Option xmlNode

/-- Observable actions of `cibmon_diff`, in program order. -/
inductive MonEffect where
  | log (level : LogLevel) (text : String)
  | process_diff (op : Option String) (diff : Option xmlNode) (base : xmlNode)
  | query
deriving DecidableEq, Repr

/-- The file-scope variables of `cibmon.c` that `cibmon_diff` touches, the
record of its actions, and the status passed to `crm_exit` once it was called. -/
structure MonState where
  log_diffs : Bool
  log_updates : Bool
  cib_copy : Option xmlNode
  trace : List MonEffect
  exited : Option crm_exit_t
deriving DecidableEq, Repr

/-- Append one action to the record. -/
def MonState.emit (s : MonState) (e : MonEffect) : MonState :=
  { s with trace := s.trace ++ [e] }

/-- The Replica Store read accessor: the document currently held. -/
def MonState.get (s : MonState) : Option xmlNode := s.cib_copy

/-- Lines 216-222 of `cibmon_diff`: optional logging of the patch and of the
raw update. -/
def cibmon_log (m : NotifyMsg) (s : MonState) : MonState :=
  let s1 := if s.log_diffs then s.emit (.log .LOG_INFO "patchset") else s
  if s1.log_updates && m.cib_update.isSome then s1.emit (.log .LOG_TRACE "raw_update") else s1

/-- Lines 224-234 of `cibmon_diff`: when a copy is held it becomes `cib_last`,
`cib_copy` is cleared, and the patch is applied to it; a return code other
than `pcmk_ok` frees the candidate and leaves `cib_copy` `NULL`.
Gives the new state and the new value of `rc`. -/
def cibmon_apply (env : CibCalls) (m : NotifyMsg) (s : MonState) (rc : Int) : MonState × Int :=
  match s.cib_copy with
  | some cib_last =>
    let s1 := { s with cib_copy := none }
    let r := env.cib_process_diff m.cib_op m.cib_update_result cib_last
    let s2 := { (s1.emit (.process_diff m.cib_op m.cib_update_result cib_last)) with cib_copy := r.2 }
    if r.1 ≠ pcmk_ok then
      ({ (s2.emit (.log .LOG_DEBUG "Update didn't apply, requesting full copy")) with cib_copy := none }, r.1)
    else
      (s2, r.1)
  | none => (s, rc)

/-- Lines 236-238 of `cibmon_diff`: with no copy held, query the full CIB into
`cib_copy`. -/
def cibmon_fetch (env : CibCalls) (s : MonState) (rc : Int) : MonState × Int :=
  match s.cib_copy with
  | none => ({ (s.emit .query) with cib_copy := env.query.2 }, env.query.1)
  | some _ => (s, rc)

/-- Lines 240-242 of `cibmon_diff`: `-EACCES` is fatal. -/
def cibmon_check (s : MonState) (rc : Int) : MonState :=
  if rc = -EACCES then { s with exited := some .CRM_EX_INSUFFICIENT_PRIV } else s

/-- The notification callback `cibmon_diff(event, msg)`; `msg = none` is a
`NULL` message. -/
def cibmon_diff (env : CibCalls) (event : String) (msg : Option NotifyMsg) (s : MonState) :
    MonState :=
  match msg with
  | none => s.emit (.log .LOG_ERR "NULL update")
  | some m =>
    let rc : Int := m.status
    if rc < pcmk_ok then
      s.emit (.log .LOG_WARNING ("[" ++ event ++ "] " ++ m.cib_op.getD "(null)" ++ " ABORTED"))
    else
      let s1 := cibmon_log m s
      let a := cibmon_apply env m s1 rc
      let f := cibmon_fetch env a.1 a.2
      cibmon_check f.1 f.2

/-- Number of full fetches in a record of actions. -/
def countQuery (t : List MonEffect) : Nat := t.count .query

/-- Number of patch applications in a record of actions. -/
def countApply (t : List MonEffect) : Nat :=
  (t.filter (fun e => match e with | .process_diff _ _ _ => true | _ => false)).length

/-! ## `crmadmin.c` -/

/-- Modelled from the spec: the two destinations `CRM_SYSTEM_DC` and
`CRM_SYSTEM_CRMD` (macros of `crm/crm.h`, not among the sources). -/
inductive CrmSystem where
  | CRM_SYSTEM_DC
  | CRM_SYSTEM_CRMD
deriving DecidableEq, Repr

/-- Modelled from the spec: the operation identifiers `CRM_OP_PING`,
`CRM_OP_VOTE` and `CRM_OP_LOCAL_SHUTDOWN` (macros of `crm/crm.h`, not among
the sources). -/
inductive CrmOp where
  | CRM_OP_PING
  | CRM_OP_VOTE
  | CRM_OP_LOCAL_SHUTDOWN
deriving DecidableEq, Repr

/-- Modelled from the spec: the expected response type `XML_ATTR_RESPONSE`
(a macro of `crm/msg_xml.h`, not among the sources). -/
def XML_ATTR_RESPONSE : String := "response"

/-- The request built by `create_request(crmd_operation, msg_data, dest_node,
sys_to, crm_system_name, admin_uuid)`. -/
structure Request where
  task : Option CrmOp
  host_to : Option String
  sys_to : Option CrmSystem
  uuid_from : Option String
deriving DecidableEq, Repr

/-- An inbound message after `string2xml(buffer)` succeeded, as the callback
reads it: `msg_type` is `crm_element_value(xml, F_CRM_MSG_TYPE)`, `reference`
is `crm_element_value(xml, XML_ATTR_REFERENCE)`, `host_from` is
`crm_element_value(xml, F_CRM_HOST_FROM)`, and the rest are the attributes of
the `F_CRM_DATA` child. -/
structure CrmMsg where
  msg_type : Option String
  reference : Option String
  host_from : Option String
  ping_sys_from : Option String
  ping_crmd_state : Option String
  ping_status : Option String
deriving DecidableEq, Repr

/-- A child element of the `nodes` section as `do_find_node_list` reads it. -/
structure NodeElem where
  name : String
  type : Option String
  uname : Option String
  id : Option String
deriving DecidableEq, Repr

/-- Observable actions of `crmadmin`, in program order. -/
inductive AdminEffect where
  | log (level : LogLevel) (text : String)
  | send_hello
  | send (cmd : Request)
  | stdout (text : String)
  | stderr (text : String)
deriving DecidableEq, Repr

/-- The file-scope variables of `crmadmin.c`, the function-static
`received_responses` of `admin_msg_callback`, the GLib timeout sources that are
armed (`sources`, as pairs of source id and interval, with the id
`g_timeout_add` hands out next), the record of actions, and the status passed
to `crm_exit` once it was called.  `mainloop` is `none` for `NULL` and
otherwise carries the loop's running flag.  Counters are unbounded integers:
`int` overflow is not modelled. -/
structure AdminState where
  message_timer_id : Int
  message_timeout_ms : Int
  mainloop : Option Bool
  crmd_channel : Bool
  admin_uuid : Option String
  BE_VERBOSE : Bool
  expected_responses : Int
  BASH_EXPORT : Bool
  DO_HEALTH : Bool
  DO_RESET : Bool
  DO_RESOURCE : Bool
  DO_ELECT_DC : Bool
  DO_WHOIS_DC : Bool
  DO_NODE_LIST : Bool
  BE_SILENT : Bool
  DO_RESOURCE_LIST : Bool
  crmd_operation : Option CrmOp
  dest_node : Option String
  exit_code : crm_exit_t
  sys_to : Option CrmSystem
  received_responses : Int
  sources : List (Int × Int)
  next_source_id : Int
  trace : List AdminEffect
  exited : Option crm_exit_t
deriving DecidableEq, Repr

/-- The static initialisers of `crmadmin.c`, with no timeout source armed. -/
def AdminState.init : AdminState :=
  { message_timer_id := -1
    message_timeout_ms := 30 * 1000
    mainloop := none
    crmd_channel := false
    admin_uuid := none
    BE_VERBOSE := false
    expected_responses := 1
    BASH_EXPORT := false
    DO_HEALTH := false
    DO_RESET := false
    DO_RESOURCE := false
    DO_ELECT_DC := false
    DO_WHOIS_DC := false
    DO_NODE_LIST := false
    BE_SILENT := false
    DO_RESOURCE_LIST := false
    crmd_operation := none
    dest_node := none
    exit_code := .CRM_EX_OK
    sys_to := none
    received_responses := 0
    sources := []
    next_source_id := 1
    trace := []
    exited := none }

/-- Append one action to the record. -/
def AdminState.emit (s : AdminState) (e : AdminEffect) : AdminState :=
  { s with trace := s.trace ++ [e] }

/-- The call `crm_exit(rc)`: the process ends with status `rc`. -/
def AdminState.crm_exit (s : AdminState) (rc : crm_exit_t) : AdminState :=
  { s with exited := some rc }

/-- GLib `g_timeout_add(interval, admin_message_timeout, NULL)`: arms a new
source and gives its id. -/
def g_timeout_add (interval : Int) (s : AdminState) : Int × AdminState :=
  (s.next_source_id,
   { s with sources := s.sources ++ [(s.next_source_id, interval)]
            next_source_id := s.next_source_id + 1 })

/-- GLib `g_source_remove(tag)`: the source with that id, if any, is destroyed. -/
def g_source_remove (tag : Int) (s : AdminState) : AdminState :=
  { s with sources := s.sources.filter (fun p => p.1 ≠ tag) }

/-- GLib `g_main_loop_quit(loop)`: clears the running flag. -/
def g_main_loop_quit (s : AdminState) : AdminState :=
  { s with mainloop := s.mainloop.map (fun _ => false) }

/-- A command-line option as the `switch` in `main` distinguishes them; `t`
carries `atoi(optarg)`, `K` and `S` carry `optarg`. -/
inductive CliOption where
  | V
  | t (ms : Int)
  | D
  | B
  | K (node : String)
  | q
  | S (node : String)
  | E
  | N
  | H
deriving DecidableEq, Repr

/-- One pass of the option `switch` in `main` (lines 169-218). -/
def set_option_flag (o : CliOption) (s : AdminState) : AdminState :=
  match o with
  | .V => { s with BE_VERBOSE := true }
  | .t ms => { s with message_timeout_ms := if ms < 1 then 30 * 1000 else ms }
  | .D => { s with DO_WHOIS_DC := true }
  | .B => { s with BASH_EXPORT := true }
  | .K node => { s with DO_RESET := true, dest_node := some node,
                        crmd_operation := some .CRM_OP_LOCAL_SHUTDOWN }
  | .q => { s with BE_SILENT := true }
  | .S node => { s with DO_HEALTH := true, dest_node := some node }
  | .E => { s with DO_ELECT_DC := true }
  | .N => { s with DO_NODE_LIST := true }
  | .H => { s with DO_HEALTH := true }

/-- The state after `main` has read all options. -/
def parse_options (os : List CliOption) : AdminState :=
  os.foldl (fun s o => set_option_flag o s) AdminState.init

/-- What the surroundings of `crmadmin` answer: whether
`mainloop_get_ipc_client` gives a channel, the string of `crm_getpid_s()`, the
return codes of the CIB `signon` and `query` calls in the node-list branch with
the children of the `nodes` section of the query output, and the mapping
`crm_errno2exit`. -/
structure AdminEnv where
  channel : Bool
  pid : String
  signon_rc : Int
  query_rc : Int
  query_nodes : List NodeElem
  crm_errno2exit : Int → crm_exit_t

/-- The function `do_init`: records the channel and the client id, and greets the
controller when a channel exists and no CIB-only command was chosen. -/
def do_init (env : AdminEnv) (s : AdminState) : Bool × AdminState :=
  let s1 := { s with admin_uuid := some env.pid, crmd_channel := env.channel }
  if s1.DO_RESOURCE || s1.DO_RESOURCE_LIST || s1.DO_NODE_LIST then
    (true, s1)
  else if s1.crmd_channel then
    (true, s1.emit .send_hello)
  else
    (false, s1)

/-- The loop body of `do_find_node_list` for one child element: gives the
line printed, if the element is a `node`. -/
def node_line ( BASH_EXPORT : Bool) (n : NodeElem) : Option String :=
  if n.name = "node" then
    if BASH_EXPORT then
      some ("export " ++ n.uname.getD "(null)" ++ "=" ++ n.id.getD "(null)")
    else
      some (n.type.getD "(null)" ++ " node: " ++ n.uname.getD "(null)" ++ " (" ++ n.id.getD "(null)" ++ ")")
  else
    none

/-- The function `do_find_node_list`: prints every `node` child and gives their
number. -/
def do_find_node_list (nodes : List NodeElem) (s : AdminState) : Int × AdminState :=
  let lines := nodes.filterMap (node_line s.BASH_EXPORT)
  let s1 := { s with trace := s.trace ++ lines.map AdminEffect.stdout }
  if lines.length = 0 then
    (0, s1.emit (.stdout "NO nodes configured"))
  else
    ((lines.length : Int), s1)

/-- Lines 338-365 of `do_work`: give up when no request was prepared or no
channel exists; otherwise default `sys_to`, build the request, send it, and
return `ret`. -/
def do_work_send (all_is_good : Bool) (ret : Int) (s : AdminState) : Int × AdminState :=
  if all_is_good = false then
    (-1, s.emit (.log .LOG_ERR "Creation of request failed.  No message to send"))
  else if s.crmd_channel = false then
    (-1, s.emit (.log .LOG_ERR "The IPC connection is not valid, cannot send anything"))
  else
    let s1 :=
      if s.sys_to = none then
        if s.dest_node ≠ none then { s with sys_to := some .CRM_SYSTEM_CRMD }
        else { s with sys_to := some .CRM_SYSTEM_DC }
      else s
    let cmd : Request :=
      { task := s1.crmd_operation, host_to := s1.dest_node, sys_to := s1.sys_to,
        uuid_from := s1.admin_uuid }
    (ret, s1.emit (.send cmd))

/-- The function `do_work`: chooses the request from the command flags, in the
order of the `if` chain, and sends it.  The result is the returned `int`; in
the node-list branch `crm_exit` ends the process inside the function. -/
def do_work (env : AdminEnv) (s : AdminState) : Int × AdminState :=
  if s.DO_HEALTH = true then
    let s1 := { s with sys_to := some .CRM_SYSTEM_DC }
    if s1.dest_node ≠ none then
      let s2 := { s1 with sys_to := some .CRM_SYSTEM_CRMD, crmd_operation := some .CRM_OP_PING }
      let s3 := if s2.BE_VERBOSE then { s2 with expected_responses := 1 } else s2
      do_work_send true 1 s3
    else
      do_work_send false 1 (s1.emit (.log .LOG_INFO "Cluster-wide health not available yet"))
  else if s.DO_ELECT_DC then
    do_work_send true 0
      { s with dest_node := none, sys_to := some .CRM_SYSTEM_CRMD, crmd_operation := some .CRM_OP_VOTE }
  else if s.DO_WHOIS_DC then
    do_work_send true 1
      { s with dest_node := none, sys_to := some .CRM_SYSTEM_DC, crmd_operation := some .CRM_OP_PING }
  else if s.DO_NODE_LIST then
    if env.signon_rc ≠ pcmk_ok then
      (-1, s)
    else
      let s1 := if env.query_rc = pcmk_ok then (do_find_node_list env.query_nodes s).2 else s
      (1, s1.crm_exit (env.crm_errno2exit env.query_rc))
  else if s.DO_RESET then
    do_work_send true 0 { s with sys_to := some .CRM_SYSTEM_CRMD }
  else
    do_work_send false 1 (s.emit (.log .LOG_ERR "Unknown options"))

/-- The C library `strcasecmp(a, b)` as far as the caller looks at it: `0`
exactly when the strings agree after ASCII lower-casing. -/
def strcasecmp (a b : String) : Int :=
  if a.data.map Char.toLower = b.data.map Char.toLower then 0 else 1

/-- The function `validate_crm_message(msg, sys, uuid, msg_type)`; `sys` and
`uuid` are not read by the body. -/
def validate_crm_message (msg : Option CrmMsg) (msg_type : Option String) : Bool :=
  match msg with
  | none => false
  | some m =>
    match m.msg_type with
    | none => false
    | some type =>
      if msg_type ≠ none ∧ strcasecmp (msg_type.getD "") type ≠ 0 then
        false
      else if m.reference = none then
        false
      else
        true

/-- Lines 447-474 of `admin_msg_callback`: the `if` chain over the parsed
message. -/
def admin_msg_handle (xml : Option CrmMsg) (s : AdminState) : AdminState :=
  match xml with
  | none => s.emit (.log .LOG_INFO "XML in IPC message was not valid... discarding.")
  | some m =>
    if validate_crm_message (some m) (some XML_ATTR_RESPONSE) = false then
      s.emit (.log .LOG_TRACE "Message was not a CRM response. Discarding.")
    else if s.DO_HEALTH then
      let s1 := s.emit (.stdout ("Status of " ++ m.ping_sys_from.getD "(null)" ++ "@"
        ++ m.host_from.getD "(null)" ++ ": " ++ m.ping_crmd_state.getD "(null)" ++ " ("
        ++ m.ping_status.getD "(null)" ++ ")"))
      match m.ping_crmd_state with
      | some state => if s1.BE_SILENT then s1.emit (.stderr state) else s1
      | none => s1
    else if s.DO_WHOIS_DC then
      let s1 := s.emit (.stdout ("Designated Controller is: " ++ m.host_from.getD "(null)"))
      let s2 :=
        match m.host_from with
        | some dc => if s1.BE_SILENT then s1.emit (.stderr dc) else s1
        | none => s1
      s2.crm_exit .CRM_EX_OK
    else
      s

/-- The IPC dispatch callback `admin_msg_callback(buffer, length, userdata)`;
`xml` is the result of `string2xml(buffer)`, `none` when the buffer does not
parse. -/
def admin_msg_callback (xml : Option CrmMsg) (s : AdminState) : AdminState :=
  let s1 := { s with received_responses := s.received_responses + 1 }
  let s2 := g_source_remove s1.message_timer_id s1
  let s3 := admin_msg_handle xml (s2.emit (.log .LOG_TRACE "ipc"))
  if s3.exited.isSome then
    s3
  else if s3.received_responses ≥ s3.expected_responses then
    (s3.emit (.log .LOG_TRACE "Received expected number of replies, exiting normally")).crm_exit
      .CRM_EX_OK
  else
    let t := g_timeout_add s3.message_timeout_ms s3
    { t.2 with message_timer_id := t.1 }

/-- The timer callback `admin_message_timeout`; the returned `gboolean` tells
GLib whether the source stays armed. -/
def admin_message_timeout (s : AdminState) : Bool × AdminState :=
  let secs := toString (Int.tdiv s.message_timeout_ms 1000)
  let s1 := s.emit (.stderr ("No messages received in " ++ secs ++ " seconds.. aborting"))
  let s2 := s1.emit (.log .LOG_ERR ("No messages received in " ++ secs ++ " seconds"))
  let s3 := { s2 with exit_code := .CRM_EX_TIMEOUT }
  (false, g_main_loop_quit s3)

/-- The disconnect callback `crmadmin_ipc_connection_destroy`. -/
def crmadmin_ipc_connection_destroy (s : AdminState) : AdminState :=
  let s1 := s.emit (.log .LOG_ERR "Connection to controller was terminated")
  if s1.mainloop.isSome then g_main_loop_quit s1 else s1.crm_exit .CRM_EX_DISCONNECT

/-- What the main loop can dispatch: an inbound message (already run through
`string2xml`), the expiry of timeout source `id`, or the loss of the
connection. -/
inductive Event where
  | ipc (xml : Option CrmMsg)
  | timeout (id : Int)
  | destroy
deriving DecidableEq, Repr

/-- Dispatch of one event to its callback.  An expiry is delivered only for a
source that is still armed, and a callback returning `FALSE` destroys its
source. -/
def dispatch (e : Event) (s : AdminState) : AdminState :=
  match e with
  | .ipc xml => admin_msg_callback xml s
  | .timeout id =>
    if id ∈ s.sources.map Prod.fst then
      let r := admin_message_timeout s
      if r.1 then r.2 else g_source_remove id r.2
    else s
  | .destroy => crmadmin_ipc_connection_destroy s

/-- The iterations of `g_main_loop_run`: callbacks run one at a time, in
arrival order, for as long as the loop's running flag is set and `crm_exit`
was not called. -/
def g_main_loop_iterate (s : AdminState) : List Event → AdminState
  | [] => s
  | e :: rest =>
    if s.exited.isSome then s
    else if s.mainloop = some true then g_main_loop_iterate (dispatch e s) rest
    else s

/-- GLib `g_main_loop_run(mainloop)` over the events that arrive. -/
def g_main_loop_run (s : AdminState) (events : List Event) : AdminState :=
  g_main_loop_iterate { s with mainloop := s.mainloop.map (fun _ => true) } events

/-- How the process ends once `g_main_loop_run` has consumed the events:
with the status given to `crm_exit`, or with `return exit_code` after the
loop was quit; `none` when the loop is still waiting for events. -/
def main_return (s : AdminState) : Option crm_exit_t :=
  match s.exited with
  | some rc => some rc
  | none => if s.mainloop = some true then none else some s.exit_code

/-- Lines 236-261 of `main`, after the options were read: initialise, send
the request, and wait for replies when `do_work` asks for it.  Gives the exit
status of the process (`none`: still waiting in the main loop) and the final
state. -/
def main (env : AdminEnv) (events : List Event) (s : AdminState) : Option crm_exit_t × AdminState :=
  let i := do_init env s
  if i.1 then
    let w := do_work env i.2
    match w.2.exited with
    | some rc => (some rc, w.2)
    | none =>
      if w.1 > 0 then
        let s1 := { w.2 with mainloop := some false }
        let t := g_timeout_add s1.message_timeout_ms s1
        let s2 := { t.2 with message_timer_id := t.1 }
        let s3 := g_main_loop_run s2 events
        (main_return s3, s3)
      else if w.1 < 0 then
        let s1 := { (w.2.emit (.log .LOG_ERR "No message to send")) with exit_code := .CRM_EX_ERROR }
        (some s1.exit_code, s1)
      else
        (some w.2.exit_code, w.2)
  else
    let s1 := { (i.2.emit (.log .LOG_WARNING "Init failed, could not perform requested operations"))
                with exit_code := .CRM_EX_UNAVAILABLE }
    (some s1.exit_code, s1)

/-! ## Sequences of notifications -/

/-- A document held before an update. -/
def docD0 : xmlNode := ⟨"<cib epoch=\"1\"/>"⟩

/-- A document produced by a successful patch application. -/
def docD1 : xmlNode := ⟨"<cib epoch=\"2\"/>"⟩

/-- A document delivered by a full fetch. -/
def docF : xmlNode := ⟨"<cib epoch=\"7\"/>"⟩

/-- A half-patched candidate left behind by a failed patch application. -/
def docPartial : xmlNode := ⟨"<cib epoch=\"1\" partial=\"1\"/>"⟩

/-- A notification with status `pcmk_ok` carrying a patch. -/
def msgOk : NotifyMsg :=
  { cib_rc := some 0, cib_op := some "cib_modify", cib_update := none,
    cib_update_result := some ⟨"<diff/>"⟩ }

/-- A notification whose status is below `pcmk_ok`. -/
def msgAborted : NotifyMsg :=
  { cib_rc := some (-EACCES), cib_op := some "cib_modify", cib_update := none,
    cib_update_result := some ⟨"<diff/>"⟩ }

/-- The monitor holding `docD0`, with logging switched off. -/
def monHolding : MonState :=
  { log_diffs := false, log_updates := false, cib_copy := some docD0, trace := [], exited := none }

/-- A CIB library whose patch application fails with `rc` and whose full fetch
answers `q`. -/
def envApplyFails (rc : Int) (q : Int × Option xmlNode) : CibCalls :=
  { cib_process_diff := fun _ _ _ => (rc, some docPartial), query := q }

/-- Surroundings with a live controller channel and a working CIB. -/
def envLive : AdminEnv :=
  { channel := true, pid := "4242", signon_rc := 0, query_rc := 0, query_nodes := [],
    crm_errno2exit := fun rc => if rc = 0 then .CRM_EX_OK else .CRM_EX_ERROR }

/-- An inbound message of the wrong type (a request, not a response). -/
def msgWrongType : CrmMsg :=
  { msg_type := some "request", reference := some "ref-17", host_from := some "node2",
    ping_sys_from := none, ping_crmd_state := none, ping_status := none }

/-- An inbound response without a correlation reference. -/
def msgNoReference : CrmMsg :=
  { msg_type := some "response", reference := none, host_from := some "node1",
    ping_sys_from := none, ping_crmd_state := none, ping_status := none }

/-- A valid, correlated ping response. -/
def msgValid : CrmMsg :=
  { msg_type := some "response", reference := some "ping-crmadmin-1", host_from := some "node1",
    ping_sys_from := some "crmd", ping_crmd_state := some "S_IDLE", ping_status := some "ok" }

/-- The state of `crmadmin -S node1` once the request is sent, the timer is
armed and the main loop waits for the reply. -/
def waitingForStatus : AdminState :=
  (main envLive [] (parse_options [.S "node1"])).2

/-- A CIB library whose patch application succeeds with `docD1`. -/
def envApplyOk (q : Int × Option xmlNode) : CibCalls :=
  { cib_process_diff := fun _ _ _ => (pcmk_ok, some docD1), query := q }

end Pacemaker

namespace Pacemaker

/-! ## Properties of `cibmon_diff` -/

theorem countQuery_append (a b : List MonEffect) :
    countQuery (a ++ b) = countQuery a + countQuery b := by
  simp [countQuery]

theorem countApply_append (a b : List MonEffect) :
    countApply (a ++ b) = countApply a + countApply b := by
  simp [countApply]

theorem cibmon_log_cib_copy (m : NotifyMsg) (s : MonState) :
    (cibmon_log m s).cib_copy = s.cib_copy := by
  unfold cibmon_log
  by_cases h1 : s.log_diffs <;> by_cases h2 : s.log_updates <;>
    cases hu : m.cib_update <;> simp [MonState.emit, h1, h2]

theorem cibmon_log_exited (m : NotifyMsg) (s : MonState) :
    (cibmon_log m s).exited = s.exited := by
  unfold cibmon_log
  by_cases h1 : s.log_diffs <;> by_cases h2 : s.log_updates <;>
    cases hu : m.cib_update <;> simp [MonState.emit, h1, h2]

theorem cibmon_log_countQuery (m : NotifyMsg) (s : MonState) :
    countQuery (cibmon_log m s).trace = countQuery s.trace := by
  unfold cibmon_log
  by_cases h1 : s.log_diffs <;> by_cases h2 : s.log_updates <;>
    cases hu : m.cib_update <;> simp [MonState.emit, h1, h2, countQuery]

theorem cibmon_log_countApply (m : NotifyMsg) (s : MonState) :
    countApply (cibmon_log m s).trace = countApply s.trace := by
  unfold cibmon_log
  by_cases h1 : s.log_diffs <;> by_cases h2 : s.log_updates <;>
    cases hu : m.cib_update <;> simp [MonState.emit, h1, h2, countApply]

/-- After a failed patch application the state handed on has no copy, the
return code of the application, and two more recorded actions. -/
theorem cibmon_apply_fail (env : CibCalls) (m : NotifyMsg) (s : MonState) (rc : Int)
    (D0 : xmlNode) (hheld : s.cib_copy = some D0)
    (hfail : (env.cib_process_diff m.cib_op m.cib_update_result D0).1 ≠ pcmk_ok) :
    cibmon_apply env m s rc =
      ({ s with
          cib_copy := none
          trace := s.trace ++ [.process_diff m.cib_op m.cib_update_result D0,
                               .log .LOG_DEBUG "Update didn't apply, requesting full copy"] },
       (env.cib_process_diff m.cib_op m.cib_update_result D0).1) := by
  unfold cibmon_apply
  simp [hheld, hfail, MonState.emit]

/-- After a successful patch application the state handed on holds whatever the
library left in the result slot. -/
theorem cibmon_apply_ok (env : CibCalls) (m : NotifyMsg) (s : MonState) (rc : Int)
    (D0 : xmlNode) (hheld : s.cib_copy = some D0)
    (hok : (env.cib_process_diff m.cib_op m.cib_update_result D0).1 = pcmk_ok) :
    cibmon_apply env m s rc =
      ({ s with
          cib_copy := (env.cib_process_diff m.cib_op m.cib_update_result D0).2
          trace := s.trace ++ [.process_diff m.cib_op m.cib_update_result D0] },
       pcmk_ok) := by
  unfold cibmon_apply
  simp [hheld, hok, MonState.emit]

/-- Unfolding of `cibmon_diff` for a message that passes the status test. -/
theorem cibmon_diff_accepted (env : CibCalls) (event : String) (m : NotifyMsg) (s : MonState)
    (hrc : ¬ m.status < pcmk_ok) :
    cibmon_diff env event (some m) s =
      cibmon_check
        (cibmon_fetch env (cibmon_apply env m (cibmon_log m s) m.status).1
          (cibmon_apply env m (cibmon_log m s) m.status).2).1
        (cibmon_fetch env (cibmon_apply env m (cibmon_log m s) m.status).1
          (cibmon_apply env m (cibmon_log m s) m.status).2).2 := by
  simp [cibmon_diff, hrc]

theorem cibmon_check_cib_copy (s : MonState) (rc : Int) :
    (cibmon_check s rc).cib_copy = s.cib_copy := by
  unfold cibmon_check; split <;> rfl

theorem cibmon_check_trace (s : MonState) (rc : Int) :
    (cibmon_check s rc).trace = s.trace := by
  unfold cibmon_check; split <;> rfl

/-- C3: when a document `D0` is held and an update with a non-failing status
arrives whose patch application fails, `cibmon_diff` first leaves the store
absent (the state handed to the fetch step holds no copy and no fetch was
issued yet), then issues exactly one full fetch, after the one patch
application, and the document that fetch delivers is what the store holds. -/
theorem cibmon_diff_failed_apply_refetches_once (env : CibCalls) (event : String)
    (m : NotifyMsg) (s : MonState) (D0 : xmlNode)
    (hheld : s.cib_copy = some D0)
    (hrc : ¬ m.status < pcmk_ok)
    (hfail : (env.cib_process_diff m.cib_op m.cib_update_result D0).1 ≠ pcmk_ok) :
    (cibmon_apply env m (cibmon_log m s) m.status).1.cib_copy = none ∧
    countQuery (cibmon_apply env m (cibmon_log m s) m.status).1.trace = countQuery s.trace ∧
    (cibmon_diff env event (some m) s).trace =
      (cibmon_log m s).trace ++
        [.process_diff m.cib_op m.cib_update_result D0,
         .log .LOG_DEBUG "Update didn't apply, requesting full copy",
         .query] ∧
    countQuery (cibmon_diff env event (some m) s).trace = countQuery s.trace + 1 ∧
    (cibmon_diff env event (some m) s).get = env.query.2 := by
  have hl : (cibmon_log m s).cib_copy = some D0 := by rw [cibmon_log_cib_copy]; exact hheld
  have ha := cibmon_apply_fail env m (cibmon_log m s) m.status D0 hl hfail
  have hq := cibmon_log_countQuery m s
  rw [cibmon_diff_accepted env event m s hrc, ha]
  refine ⟨rfl, ?_, ?_, ?_, ?_⟩
  · simp only [countQuery] at hq ⊢
    simp [hq]
  · simp [cibmon_check_trace, cibmon_fetch, MonState.emit]
  · simp only [countQuery] at hq ⊢
    simp [cibmon_check_trace, cibmon_fetch, MonState.emit, hq]
  · simp [MonState.get, cibmon_check_cib_copy, cibmon_fetch, MonState.emit]

/-- C3 at a concrete input: `docD0` is held, the patch fails with a negative
code, and the fetch delivers `docF`. -/
theorem cibmon_diff_failed_apply_refetches_once_witness :
    (cibmon_apply (envApplyFails (-205) (0, some docF)) msgOk (cibmon_log msgOk monHolding)
        msgOk.status).1.cib_copy = none ∧
    countQuery (cibmon_apply (envApplyFails (-205) (0, some docF)) msgOk
        (cibmon_log msgOk monHolding) msgOk.status).1.trace = countQuery monHolding.trace ∧
    (cibmon_diff (envApplyFails (-205) (0, some docF)) "cib_diff_notify" (some msgOk)
        monHolding).trace =
      (cibmon_log msgOk monHolding).trace ++
        [.process_diff msgOk.cib_op msgOk.cib_update_result docD0,
         .log .LOG_DEBUG "Update didn't apply, requesting full copy",
         .query] ∧
    countQuery (cibmon_diff (envApplyFails (-205) (0, some docF)) "cib_diff_notify" (some msgOk)
        monHolding).trace = countQuery monHolding.trace + 1 ∧
    (cibmon_diff (envApplyFails (-205) (0, some docF)) "cib_diff_notify" (some msgOk)
        monHolding).get = (envApplyFails (-205) (0, some docF)).query.2 :=
  cibmon_diff_failed_apply_refetches_once (envApplyFails (-205) (0, some docF))
    "cib_diff_notify" msgOk monHolding docD0 rfl (by decide) (by decide)

/-- A rejected update only writes one log line. -/
theorem cibmon_diff_rejected (env : CibCalls) (event : String)
    (msg : Option NotifyMsg) (s : MonState)
    (hrej : msg = none ∨ ∃ m, msg = some m ∧ m.status < pcmk_ok) :
    ∃ level text, cibmon_diff env event msg s = { s with trace := s.trace ++ [.log level text] } := by
  rcases hrej with h | ⟨m, h, hlt⟩
  · subst h
    exact ⟨_, _, rfl⟩
  · subst h
    refine ⟨.LOG_WARNING, "[" ++ event ++ "] " ++ m.cib_op.getD "(null)" ++ " ABORTED", ?_⟩
    simp only [cibmon_diff, hlt, MonState.emit, if_true]

/-- C4: an update that is absent, or whose status is below `pcmk_ok`, leaves
the store and the exit state as they were; the only thing `cibmon_diff` does
is write one log line, so neither a patch application nor a full fetch is
issued. -/
theorem cibmon_diff_rejected_event_changes_nothing (env : CibCalls) (event : String)
    (msg : Option NotifyMsg) (s : MonState)
    (hrej : msg = none ∨ ∃ m, msg = some m ∧ m.status < pcmk_ok) :
    (cibmon_diff env event msg s).get = s.get ∧
    (∃ level text, cibmon_diff env event msg s = { s with trace := s.trace ++ [.log level text] }) ∧
    countApply (cibmon_diff env event msg s).trace = countApply s.trace ∧
    countQuery (cibmon_diff env event msg s).trace = countQuery s.trace := by
  obtain ⟨level, text, h⟩ := cibmon_diff_rejected env event msg s hrej
  refine ⟨?_, ⟨level, text, h⟩, ?_, ?_⟩
  · rw [h]; rfl
  · rw [h]; simp [countApply]
  · rw [h]; simp [countQuery]

/-- C4 at a concrete input: `docD0` is held and the update carries a status
below `pcmk_ok`. -/
theorem cibmon_diff_rejected_event_changes_nothing_witness :
    (cibmon_diff (envApplyOk (0, some docF)) "cib_diff_notify" (some msgAborted) monHolding).get
      = monHolding.get ∧
    (∃ level text, cibmon_diff (envApplyOk (0, some docF)) "cib_diff_notify" (some msgAborted)
      monHolding = { monHolding with trace := monHolding.trace ++ [.log level text] }) ∧
    countApply (cibmon_diff (envApplyOk (0, some docF)) "cib_diff_notify" (some msgAborted)
      monHolding).trace = countApply monHolding.trace ∧
    countQuery (cibmon_diff (envApplyOk (0, some docF)) "cib_diff_notify" (some msgAborted)
      monHolding).trace = countQuery monHolding.trace :=
  cibmon_diff_rejected_event_changes_nothing (envApplyOk (0, some docF)) "cib_diff_notify"
    (some msgAborted) monHolding (Or.inr ⟨msgAborted, rfl, by decide⟩)

/-- With no copy held, an accepted update goes straight to the full fetch. -/
theorem cibmon_diff_absent (env : CibCalls) (event : String) (m : NotifyMsg) (s : MonState)
    (hrc : ¬ m.status < pcmk_ok) (habs : s.cib_copy = none) :
    cibmon_diff env event (some m) s =
      cibmon_check
        { cibmon_log m s with
            cib_copy := env.query.2
            trace := (cibmon_log m s).trace ++ [.query] }
        env.query.1 := by
  have hl : (cibmon_log m s).cib_copy = none := by rw [cibmon_log_cib_copy]; exact habs
  rw [cibmon_diff_accepted env event m s hrc]
  simp [cibmon_apply, cibmon_fetch, hl, MonState.emit]

/-- A failed patch application is followed by the full fetch. -/
theorem cibmon_diff_apply_failed (env : CibCalls) (event : String) (m : NotifyMsg)
    (s : MonState) (D0 : xmlNode) (hrc : ¬ m.status < pcmk_ok) (hheld : s.cib_copy = some D0)
    (hfail : (env.cib_process_diff m.cib_op m.cib_update_result D0).1 ≠ pcmk_ok) :
    cibmon_diff env event (some m) s =
      cibmon_check
        { cibmon_log m s with
            cib_copy := env.query.2
            trace := (cibmon_log m s).trace ++
              [.process_diff m.cib_op m.cib_update_result D0,
               .log .LOG_DEBUG "Update didn't apply, requesting full copy", .query] }
        env.query.1 := by
  have hl : (cibmon_log m s).cib_copy = some D0 := by rw [cibmon_log_cib_copy]; exact hheld
  rw [cibmon_diff_accepted env event m s hrc,
    cibmon_apply_fail env m (cibmon_log m s) m.status D0 hl hfail]
  simp [cibmon_fetch, MonState.emit]

/-- A patch application that reports success but leaves no document is followed
by the full fetch. -/
theorem cibmon_diff_apply_empty (env : CibCalls) (event : String) (m : NotifyMsg)
    (s : MonState) (D0 : xmlNode) (hrc : ¬ m.status < pcmk_ok) (hheld : s.cib_copy = some D0)
    (hok : env.cib_process_diff m.cib_op m.cib_update_result D0 = (pcmk_ok, none)) :
    cibmon_diff env event (some m) s =
      cibmon_check
        { cibmon_log m s with
            cib_copy := env.query.2
            trace := (cibmon_log m s).trace ++
              [.process_diff m.cib_op m.cib_update_result D0, .query] }
        env.query.1 := by
  have hl : (cibmon_log m s).cib_copy = some D0 := by rw [cibmon_log_cib_copy]; exact hheld
  have h1 : (env.cib_process_diff m.cib_op m.cib_update_result D0).1 = pcmk_ok := by rw [hok]
  rw [cibmon_diff_accepted env event m s hrc,
    cibmon_apply_ok env m (cibmon_log m s) m.status D0 hl h1]
  simp [cibmon_fetch, MonState.emit, hok]

/-- A patch application that succeeds with a candidate installs it, and nothing
else happens. -/
theorem cibmon_diff_apply_installed (env : CibCalls) (event : String) (m : NotifyMsg)
    (s : MonState) (D0 D1 : xmlNode) (hrc : ¬ m.status < pcmk_ok)
    (hheld : s.cib_copy = some D0)
    (hok : env.cib_process_diff m.cib_op m.cib_update_result D0 = (pcmk_ok, some D1)) :
    cibmon_diff env event (some m) s =
      { cibmon_log m s with
          cib_copy := some D1
          trace := (cibmon_log m s).trace ++ [.process_diff m.cib_op m.cib_update_result D0] } := by
  have hl : (cibmon_log m s).cib_copy = some D0 := by rw [cibmon_log_cib_copy]; exact hheld
  have h1 : (env.cib_process_diff m.cib_op m.cib_update_result D0).1 = pcmk_ok := by rw [hok]
  have hne : pcmk_ok ≠ -EACCES := by decide
  rw [cibmon_diff_accepted env event m s hrc,
    cibmon_apply_ok env m (cibmon_log m s) m.status D0 hl h1]
  simp [cibmon_fetch, cibmon_check, hok, hne]

/-- The record after an accepted update, in the four ways it can go: either a
full fetch was issued (and then the store holds what it delivered and the
final return code is the fetch's), or a candidate was installed without any
fetch. -/
theorem cibmon_diff_accepted_cases (env : CibCalls) (event : String) (m : NotifyMsg)
    (s : MonState) (hrc : ¬ m.status < pcmk_ok) :
    (∃ pre : List MonEffect, countQuery pre = 0 ∧
      cibmon_diff env event (some m) s =
        cibmon_check
          { cibmon_log m s with
              cib_copy := env.query.2
              trace := (cibmon_log m s).trace ++ pre ++ [.query] }
          env.query.1) ∨
    (∃ D0 D1, s.cib_copy = some D0 ∧
      env.cib_process_diff m.cib_op m.cib_update_result D0 = (pcmk_ok, some D1) ∧
      cibmon_diff env event (some m) s =
        { cibmon_log m s with
            cib_copy := some D1
            trace := (cibmon_log m s).trace ++
              [.process_diff m.cib_op m.cib_update_result D0] }) := by
  cases hc : s.cib_copy with
  | none =>
    left
    exact ⟨[], rfl, by rw [cibmon_diff_absent env event m s hrc hc]; simp⟩
  | some D0 =>
    by_cases hok : (env.cib_process_diff m.cib_op m.cib_update_result D0).1 = pcmk_ok
    · cases hout : (env.cib_process_diff m.cib_op m.cib_update_result D0).2 with
      | none =>
        left
        have hpair : env.cib_process_diff m.cib_op m.cib_update_result D0 = (pcmk_ok, none) :=
          Prod.ext hok hout
        exact ⟨[.process_diff m.cib_op m.cib_update_result D0], by simp [countQuery],
          by rw [cibmon_diff_apply_empty env event m s D0 hrc hc hpair]; simp⟩
      | some D1 =>
        right
        have hpair : env.cib_process_diff m.cib_op m.cib_update_result D0 = (pcmk_ok, some D1) :=
          Prod.ext hok hout
        exact ⟨D0, D1, rfl, hpair, cibmon_diff_apply_installed env event m s D0 D1 hrc hc hpair⟩
    · left
      exact ⟨[.process_diff m.cib_op m.cib_update_result D0,
          .log .LOG_DEBUG "Update didn't apply, requesting full copy"], by simp [countQuery],
        by rw [cibmon_diff_apply_failed env event m s D0 hrc hc hok]; simp⟩

/-- C5, as stated, fails: `docD0` is held, the patch application fails and the
full fetch fails with "not connected" and delivers nothing.  `cibmon_diff`
returns (no exit) and the store then yields no document at all: neither the
prior document nor a new one. -/
theorem cibmon_diff_store_lost_counterexample :
    monHolding.get = some docD0 ∧
    (cibmon_diff (envApplyFails (-205) (-ENOTCONN, none)) "cib_diff_notify" (some msgOk)
      monHolding).exited = none ∧
    ¬ (∃ d, (cibmon_diff (envApplyFails (-205) (-ENOTCONN, none)) "cib_diff_notify" (some msgOk)
      monHolding).get = some d) := by
  have h := cibmon_diff_apply_failed (envApplyFails (-205) (-ENOTCONN, none)) "cib_diff_notify"
    msgOk monHolding docD0 (by decide) rfl (by decide)
  rw [h]
  refine ⟨rfl, ?_, ?_⟩
  · simp [cibmon_check, envApplyFails, cibmon_log, monHolding, ENOTCONN, EACCES]
  · simp [MonState.get, cibmon_check_cib_copy, envApplyFails]

/-- C5, amended: after any call of `cibmon_diff` the store yields one of three
things: what it yielded before the call; the candidate of a patch application
that reported `pcmk_ok` (and then no fetch was issued); or exactly what the
one full fetch issued during the call delivered, which is nothing when that
fetch delivered no document.  The candidate of a failed patch application is
never among them. -/
theorem cibmon_diff_store_prior_candidate_or_fetched (env : CibCalls) (event : String)
    (msg : Option NotifyMsg) (s : MonState) :
    (cibmon_diff env event msg s).get = s.get ∨
    (∃ m D0 D1, msg = some m ∧ s.get = some D0 ∧
      env.cib_process_diff m.cib_op m.cib_update_result D0 = (pcmk_ok, some D1) ∧
      (cibmon_diff env event msg s).get = some D1 ∧
      countQuery (cibmon_diff env event msg s).trace = countQuery s.trace) ∨
    (countQuery (cibmon_diff env event msg s).trace = countQuery s.trace + 1 ∧
      (cibmon_diff env event msg s).get = env.query.2) := by
  cases msg with
  | none => left; rfl
  | some m =>
    by_cases hrc : m.status < pcmk_ok
    · left
      obtain ⟨level, text, h⟩ := cibmon_diff_rejected env event (some m) s (Or.inr ⟨m, rfl, hrc⟩)
      rw [h]; rfl
    · have hq := cibmon_log_countQuery m s
      simp only [countQuery] at hq
      rcases cibmon_diff_accepted_cases env event m s hrc with ⟨pre, hpre, h⟩ | ⟨D0, D1, hc, hp, h⟩
      · right; right
        simp only [countQuery] at hpre
        rw [h]
        constructor
        · simp [countQuery, cibmon_check_trace, hq, hpre]
        · simp [MonState.get, cibmon_check_cib_copy]
      · right; left
        refine ⟨m, D0, D1, rfl, hc, hp, ?_, ?_⟩
        · rw [h]; rfl
        · rw [h]; simp [countQuery, hq]

/-- C6: when `D0` is held and an update with a non-failing status arrives whose
patch application to `D0` succeeds with candidate `D1`, the store holds `D1`
afterwards, the patch was applied once, no full fetch was issued and the
process goes on. -/
theorem cibmon_diff_successful_apply_installs_candidate (env : CibCalls) (event : String)
    (m : NotifyMsg) (s : MonState) (D0 D1 : xmlNode)
    (hheld : s.get = some D0)
    (hrc : ¬ m.status < pcmk_ok)
    (hok : env.cib_process_diff m.cib_op m.cib_update_result D0 = (pcmk_ok, some D1)) :
    (cibmon_diff env event (some m) s).get = some D1 ∧
    countQuery (cibmon_diff env event (some m) s).trace = countQuery s.trace ∧
    countApply (cibmon_diff env event (some m) s).trace = countApply s.trace + 1 ∧
    (cibmon_diff env event (some m) s).exited = s.exited := by
  have hq := cibmon_log_countQuery m s
  have ha := cibmon_log_countApply m s
  simp only [countQuery] at hq
  rw [cibmon_diff_apply_installed env event m s D0 D1 hrc hheld hok]
  refine ⟨rfl, ?_, ?_, ?_⟩
  · simp [countQuery, hq]
  · show countApply ((cibmon_log m s).trace ++ _) = _
    rw [countApply_append, ha]
    rfl
  · simp [cibmon_log_exited]

/-- C6 at a concrete input: `docD0` is held and the patch yields `docD1`. -/
theorem cibmon_diff_successful_apply_installs_candidate_witness :
    (cibmon_diff (envApplyOk (0, some docF)) "cib_diff_notify" (some msgOk) monHolding).get
      = some docD1 ∧
    countQuery (cibmon_diff (envApplyOk (0, some docF)) "cib_diff_notify" (some msgOk)
      monHolding).trace = countQuery monHolding.trace ∧
    countApply (cibmon_diff (envApplyOk (0, some docF)) "cib_diff_notify" (some msgOk)
      monHolding).trace = countApply monHolding.trace + 1 ∧
    (cibmon_diff (envApplyOk (0, some docF)) "cib_diff_notify" (some msgOk) monHolding).exited
      = monHolding.exited :=
  cibmon_diff_successful_apply_installs_candidate (envApplyOk (0, some docF)) "cib_diff_notify"
    msgOk monHolding docD0 docD1 rfl (by decide) rfl

/-- C7: in a running process, `cibmon_diff` ends the process with
`CRM_EX_INSUFFICIENT_PRIV` exactly when a full fetch was issued during the call
and returned `-EACCES`; in every other case the process goes on.  In
particular a `-EACCES` carried by the update's status or returned by the patch
application, without such a fetch, does not end it. -/
theorem cibmon_diff_exits_iff_fetch_denied (env : CibCalls) (event : String)
    (msg : Option NotifyMsg) (s : MonState) (hrun : s.exited = none) :
    ((cibmon_diff env event msg s).exited = some .CRM_EX_INSUFFICIENT_PRIV ↔
      (countQuery (cibmon_diff env event msg s).trace = countQuery s.trace + 1 ∧
        env.query.1 = -EACCES)) ∧
    ((cibmon_diff env event msg s).exited = some .CRM_EX_INSUFFICIENT_PRIV ∨
      (cibmon_diff env event msg s).exited = none) := by
  by_cases hrej : msg = none ∨ ∃ m, msg = some m ∧ m.status < pcmk_ok
  · obtain ⟨level, text, h⟩ := cibmon_diff_rejected env event msg s hrej
    have hex : (cibmon_diff env event msg s).exited = none := by rw [h]; exact hrun
    have hq : countQuery (cibmon_diff env event msg s).trace = countQuery s.trace := by
      rw [h]; simp [countQuery]
    refine ⟨⟨fun h1 => ?_, fun h1 => ?_⟩, Or.inr hex⟩
    · rw [hex] at h1; cases h1
    · rw [hq] at h1; omega
  · cases msg with
    | none => exact absurd (Or.inl rfl) hrej
    | some m =>
      have hrc : ¬ m.status < pcmk_ok := fun h => hrej (Or.inr ⟨m, rfl, h⟩)
      have hq := cibmon_log_countQuery m s
      have hl := cibmon_log_exited m s
      simp only [countQuery] at hq
      rcases cibmon_diff_accepted_cases env event m s hrc with ⟨pre, hpre, h⟩ | ⟨D0, D1, hc, hp, h⟩
      · simp only [countQuery] at hpre
        rw [h]
        by_cases hd : env.query.1 = -EACCES
        · simp [cibmon_check, hd, countQuery, hq, hpre]
        · simp [cibmon_check, hd, countQuery, hq, hpre, hl, hrun]
      · rw [h]
        simp [countQuery, hq, hl, hrun]

/-- C7 at a concrete input: the update's own status is fine, the patch
application fails with `-EACCES`, and the fetch that follows succeeds: the
process goes on. -/
theorem cibmon_diff_exits_iff_fetch_denied_witness :
    (((cibmon_diff (envApplyFails (-EACCES) (0, some docF)) "cib_diff_notify" (some msgOk)
        monHolding).exited = some .CRM_EX_INSUFFICIENT_PRIV ↔
      (countQuery (cibmon_diff (envApplyFails (-EACCES) (0, some docF)) "cib_diff_notify"
          (some msgOk) monHolding).trace = countQuery monHolding.trace + 1 ∧
        (envApplyFails (-EACCES) (0, some docF)).query.1 = -EACCES)) ∧
    ((cibmon_diff (envApplyFails (-EACCES) (0, some docF)) "cib_diff_notify" (some msgOk)
        monHolding).exited = some .CRM_EX_INSUFFICIENT_PRIV ∨
      (cibmon_diff (envApplyFails (-EACCES) (0, some docF)) "cib_diff_notify" (some msgOk)
        monHolding).exited = none)) ∧
    (cibmon_diff (envApplyFails (-EACCES) (0, some docF)) "cib_diff_notify" (some msgOk)
        monHolding).exited = none :=
  ⟨cibmon_diff_exits_iff_fetch_denied (envApplyFails (-EACCES) (0, some docF))
    "cib_diff_notify" (some msgOk) monHolding rfl, by
      rw [cibmon_diff_apply_failed (envApplyFails (-EACCES) (0, some docF)) "cib_diff_notify"
        msgOk monHolding docD0 (by decide) rfl (by decide)]
      simp [cibmon_check, envApplyFails, cibmon_log, monHolding, EACCES]⟩

/-! ## Sequences of updates -/

/-- A message that does not parse or does not validate only adds a log line in
the `if` chain of the callback. -/
theorem admin_msg_handle_invalid (xml : Option CrmMsg) (s : AdminState)
    (hbad : validate_crm_message xml (some XML_ATTR_RESPONSE) = false) :
    ∃ level text, admin_msg_handle xml s = s.emit (.log level text) := by
  cases xml with
  | none => exact ⟨_, _, rfl⟩
  | some m => exact ⟨.LOG_TRACE, "Message was not a CRM response. Discarding.", by
      simp [admin_msg_handle, hbad]⟩

/-- What `admin_msg_callback` does with a message that does not parse or does
not validate, in any state: the message is counted all the same, and the
process ends with `CRM_EX_OK` as soon as the count reaches the expected
number. -/
theorem admin_msg_callback_invalid (xml : Option CrmMsg) (s : AdminState)
    (hrun : s.exited = none)
    (hbad : validate_crm_message xml (some XML_ATTR_RESPONSE) = false) :
    (admin_msg_callback xml s).received_responses = s.received_responses + 1 ∧
    (s.expected_responses ≤ s.received_responses + 1 →
      (admin_msg_callback xml s).exited = some .CRM_EX_OK) := by
  obtain ⟨level, text, h⟩ :=
    admin_msg_handle_invalid xml
      ((g_source_remove s.message_timer_id
        { s with received_responses := s.received_responses + 1 }).emit (.log .LOG_TRACE "ipc")) hbad
  unfold admin_msg_callback
  simp only [h]
  by_cases hge : s.expected_responses ≤ s.received_responses + 1
  · simp [AdminState.emit, g_source_remove, AdminState.crm_exit, hrun, hge]
  · simp [AdminState.emit, g_source_remove, AdminState.crm_exit, hrun, hge, g_timeout_add]

/-- C1, evaluated on the code: `crmadmin -S node1` waits for its one reply with
nothing received yet.  A buffer that does not parse, a message of the wrong
type and a response without reference each fail the checks, yet each is
counted as a received reply (the counter goes from 0 to 1) and the process
ends at once with `CRM_EX_OK`. -/
theorem admin_msg_callback_counts_discarded_message :
    waitingForStatus.exited = none ∧
    waitingForStatus.received_responses = 0 ∧
    waitingForStatus.expected_responses = 1 ∧
    validate_crm_message (some msgWrongType) (some XML_ATTR_RESPONSE) = false ∧
    validate_crm_message (some msgNoReference) (some XML_ATTR_RESPONSE) = false ∧
    (admin_msg_callback none waitingForStatus).received_responses = 1 ∧
    (admin_msg_callback none waitingForStatus).exited = some .CRM_EX_OK ∧
    (admin_msg_callback (some msgWrongType) waitingForStatus).received_responses = 1 ∧
    (admin_msg_callback (some msgWrongType) waitingForStatus).exited = some .CRM_EX_OK ∧
    (admin_msg_callback (some msgNoReference) waitingForStatus).received_responses = 1 ∧
    (admin_msg_callback (some msgNoReference) waitingForStatus).exited = some .CRM_EX_OK := by
  decide

/-- C2, evaluated on the code: with one reply expected, a wrong-type message
followed by a valid reply ends the process with `CRM_EX_OK` on the first, the
wrong-type, message; the valid reply is never handled (the run ends in the
same state as the run that only sees the wrong-type message, and nothing was
printed).  So the process ends with success although the messages handled
contain no valid reply. -/
theorem main_succeeds_on_wrong_type_message :
    (parse_options [.S "node1"]).expected_responses = 1 ∧
    validate_crm_message (some msgWrongType) (some XML_ATTR_RESPONSE) = false ∧
    validate_crm_message (some msgValid) (some XML_ATTR_RESPONSE) = true ∧
    (main envLive [.ipc (some msgWrongType)] (parse_options [.S "node1"])).1
      = some .CRM_EX_OK ∧
    main envLive [.ipc (some msgWrongType), .ipc (some msgValid)] (parse_options [.S "node1"])
      = main envLive [.ipc (some msgWrongType)] (parse_options [.S "node1"]) ∧
    (main envLive [.ipc (some msgWrongType), .ipc (some msgValid)]
      (parse_options [.S "node1"])).2.trace.all
        (fun e => match e with | .stdout _ => false | _ => true) = true := by
  decide

/-- C9, as stated, fails on command lines with two selectors.  With `-S node1
-E` the election selector is set, yet `do_work` takes the status branch,
reports 1 and the timer is armed.  With `-K node1 -N` the shutdown selector is
set and neither the status nor the coordinator selector is, yet `do_work`
takes the node-list branch: no request is sent and the process ends inside
`do_work`. -/
theorem do_work_two_selectors_counterexample :
    envLive.channel = true ∧
    (parse_options [.S "node1", .E]).DO_ELECT_DC = true ∧
    (do_work envLive (do_init envLive (parse_options [.S "node1", .E])).2).1 = 1 ∧
    (main envLive [] (parse_options [.S "node1", .E])).2.sources = [(1, 30 * 1000)] ∧
    (main envLive [] (parse_options [.S "node1", .E])).1 = none ∧
    (parse_options [.K "node1", .N]).DO_RESET = true ∧
    (parse_options [.K "node1", .N]).DO_HEALTH = false ∧
    (parse_options [.K "node1", .N]).DO_WHOIS_DC = false ∧
    (do_work envLive (do_init envLive (parse_options [.K "node1", .N])).2).2.trace.all
      (fun e => match e with | .send _ => false | _ => true) = true ∧
    (do_work envLive (do_init envLive (parse_options [.K "node1", .N])).2).2.exited
      = some .CRM_EX_OK := by
  decide

/-- C9, amended: with a live channel, in a running process whose exit status is
still the initial `CRM_EX_OK`:
when the status selector is not set and either the election selector is set,
or the shutdown selector is set with neither the coordinator nor the node-list
selector, `do_work` sends exactly one request and returns 0, and `main` then
returns `CRM_EX_OK` whatever events might have arrived, with no timeout source
armed and no main loop created;
when the status selector is set with a target node, or the coordinator
selector is set with neither the status nor the election selector, `do_work`
sends exactly one request and returns a positive number, and `main` arms one
timeout source with interval `message_timeout_ms`, remembers its id and waits
in the main loop. -/
theorem do_work_reply_expectation (env : AdminEnv) (s : AdminState) (events : List Event)
    (hch : env.channel = true) (hrun : s.exited = none) (hcode : s.exit_code = .CRM_EX_OK) :
    ((s.DO_HEALTH = false ∧
        (s.DO_ELECT_DC = true ∨
          (s.DO_WHOIS_DC = false ∧ s.DO_NODE_LIST = false ∧ s.DO_RESET = true))) →
      (do_work env (do_init env s).2).1 = 0 ∧
      (∃ cmd, (do_work env (do_init env s).2).2.trace
        = (do_init env s).2.trace ++ [.send cmd]) ∧
      (main env events s).1 = some .CRM_EX_OK ∧
      (main env events s).2.sources = s.sources ∧
      (main env events s).2.mainloop = s.mainloop) ∧
    (((s.DO_HEALTH = true ∧ s.dest_node ≠ none) ∨
        (s.DO_HEALTH = false ∧ s.DO_ELECT_DC = false ∧ s.DO_WHOIS_DC = true)) →
      0 < (do_work env (do_init env s).2).1 ∧
      (∃ cmd, (do_work env (do_init env s).2).2.trace
        = (do_init env s).2.trace ++ [.send cmd]) ∧
      (main env [] s).2.sources = s.sources ++ [(s.next_source_id, s.message_timeout_ms)] ∧
      (main env [] s).2.message_timer_id = s.next_source_id ∧
      (main env [] s).2.mainloop = some true ∧
      (main env [] s).1 = none) := by
  constructor
  · rintro ⟨hH, hE | ⟨hD, hN, hR⟩⟩
    · by_cases hc : (s.DO_RESOURCE || s.DO_RESOURCE_LIST || s.DO_NODE_LIST) = true <;>
        simp [main, do_init, do_work, do_work_send, AdminState.emit, hch, hrun, hcode, hH, hE, hc]
    · by_cases hE : s.DO_ELECT_DC = true <;>
      by_cases hc : (s.DO_RESOURCE || s.DO_RESOURCE_LIST) = true <;>
        simp [main, do_init, do_work, do_work_send, AdminState.emit, hch, hrun, hcode, hH, hE, hD,
          hN, hR, hc]
  · rintro (⟨hH, hdest⟩ | ⟨hH, hE, hD⟩)
    · obtain ⟨node, hnode⟩ := Option.ne_none_iff_exists'.mp hdest
      by_cases hc : (s.DO_RESOURCE || s.DO_RESOURCE_LIST || s.DO_NODE_LIST) = true <;>
      by_cases hv : s.BE_VERBOSE = true <;>
        simp [main, do_init, do_work, do_work_send, AdminState.emit, hch, hrun, hH, hnode, hc,
          hv, g_timeout_add, g_main_loop_run, g_main_loop_iterate, main_return]
    · by_cases hc : (s.DO_RESOURCE || s.DO_RESOURCE_LIST || s.DO_NODE_LIST) = true <;>
        simp [main, do_init, do_work, do_work_send, AdminState.emit, hch, hrun, hH, hE, hD, hc,
          g_timeout_add, g_main_loop_run, g_main_loop_iterate, main_return]

/-- C9 at concrete inputs: `crmadmin -E` is fire-and-forget, `crmadmin -S node1`
expects a reply. -/
theorem do_work_reply_expectation_witness :
    ((do_work envLive (do_init envLive (parse_options [.E])).2).1 = 0 ∧
      (∃ cmd, (do_work envLive (do_init envLive (parse_options [.E])).2).2.trace
        = (do_init envLive (parse_options [.E])).2.trace ++ [.send cmd]) ∧
      (main envLive [.ipc (some msgValid)] (parse_options [.E])).1 = some .CRM_EX_OK ∧
      (main envLive [.ipc (some msgValid)] (parse_options [.E])).2.sources
        = (parse_options [.E]).sources ∧
      (main envLive [.ipc (some msgValid)] (parse_options [.E])).2.mainloop
        = (parse_options [.E]).mainloop) ∧
    (0 < (do_work envLive (do_init envLive (parse_options [.S "node1"])).2).1 ∧
      (∃ cmd, (do_work envLive (do_init envLive (parse_options [.S "node1"])).2).2.trace
        = (do_init envLive (parse_options [.S "node1"])).2.trace ++ [.send cmd]) ∧
      (main envLive [] (parse_options [.S "node1"])).2.sources
        = (parse_options [.S "node1"]).sources ++
          [((parse_options [.S "node1"]).next_source_id,
            (parse_options [.S "node1"]).message_timeout_ms)] ∧
      (main envLive [] (parse_options [.S "node1"])).2.message_timer_id
        = (parse_options [.S "node1"]).next_source_id ∧
      (main envLive [] (parse_options [.S "node1"])).2.mainloop = some true ∧
      (main envLive [] (parse_options [.S "node1"])).1 = none) :=
  ⟨(do_work_reply_expectation envLive (parse_options [.E]) [.ipc (some msgValid)]
      rfl rfl rfl).1 ⟨rfl, Or.inl rfl⟩,
   (do_work_reply_expectation envLive (parse_options [.S "node1"]) [] rfl rfl rfl).2
      (Or.inl ⟨rfl, by decide⟩)⟩

/-- Once the loop was quit or the process ended, the remaining events are not
dispatched. -/
theorem g_main_loop_iterate_stopped (s : AdminState) (events : List Event)
    (hstop : s.exited.isSome = true ∨ s.mainloop ≠ some true) :
    g_main_loop_iterate s events = s := by
  cases events with
  | nil => rfl
  | cons e rest =>
    rcases hstop with h | h
    · simp [g_main_loop_iterate, h]
    · simp [g_main_loop_iterate, h]

/-- C10: in any state in which the main loop is running (whatever the exit
status and the reply count are), when an armed timeout source expires,
`admin_message_timeout` sets the exit status to `CRM_EX_TIMEOUT`, quits the
loop and returns `FALSE`, so that its source is destroyed and no new source
is armed; no later event is dispatched, and `main` returns `CRM_EX_TIMEOUT`,
which is not the success status. -/
theorem admin_message_timeout_ends_with_timeout (s : AdminState) (id : Int)
    (rest : List Event)
    (hloop : s.mainloop = some true) (hrun : s.exited = none)
    (harmed : id ∈ s.sources.map Prod.fst) :
    (admin_message_timeout s).1 = false ∧
    (admin_message_timeout s).2.exit_code = .CRM_EX_TIMEOUT ∧
    (admin_message_timeout s).2.mainloop = some false ∧
    (admin_message_timeout s).2.sources = s.sources ∧
    (g_main_loop_iterate s (.timeout id :: rest)).exit_code = .CRM_EX_TIMEOUT ∧
    (g_main_loop_iterate s (.timeout id :: rest)).mainloop = some false ∧
    (g_main_loop_iterate s (.timeout id :: rest)).sources
      = s.sources.filter (fun p => p.1 ≠ id) ∧
    (g_main_loop_iterate s (.timeout id :: rest)).next_source_id = s.next_source_id ∧
    (g_main_loop_iterate s (.timeout id :: rest)).received_responses = s.received_responses ∧
    main_return (g_main_loop_iterate s (.timeout id :: rest)) = some .CRM_EX_TIMEOUT ∧
    crm_exit_t.CRM_EX_TIMEOUT ≠ crm_exit_t.CRM_EX_OK := by
  have hd : dispatch (.timeout id) s = g_source_remove id (admin_message_timeout s).2 := by
    have hm : ∃ a, (id, a) ∈ s.sources := by simpa using harmed
    simp [dispatch, hm, admin_message_timeout]
  have hstep : g_main_loop_iterate s (.timeout id :: rest)
      = g_source_remove id (admin_message_timeout s).2 := by
    rw [g_main_loop_iterate]
    simp only [hrun, hloop, hd]
    simp only [Option.isSome_none, Bool.false_eq_true, if_false, if_true]
    apply g_main_loop_iterate_stopped
    right
    simp [g_source_remove, admin_message_timeout, g_main_loop_quit, AdminState.emit, hloop]
  rw [hstep]
  simp [g_source_remove, admin_message_timeout, g_main_loop_quit, AdminState.emit, hloop, hrun,
    main_return]

/-- C10 at a concrete input: `crmadmin -S node1` is waiting, its timer expires,
and a reply that arrives afterwards is no longer handled. -/
theorem admin_message_timeout_ends_with_timeout_witness :
    main_return (g_main_loop_iterate waitingForStatus [.timeout 1, .ipc (some msgValid)])
      = some .CRM_EX_TIMEOUT ∧
    (g_main_loop_iterate waitingForStatus [.timeout 1, .ipc (some msgValid)]).sources = [] ∧
    (main envLive [.timeout 1, .ipc (some msgValid)] (parse_options [.S "node1"])).1
      = some .CRM_EX_TIMEOUT :=
  ⟨(admin_message_timeout_ends_with_timeout waitingForStatus 1 [.ipc (some msgValid)]
      rfl rfl (by decide)).2.2.2.2.2.2.2.2.2.1, by decide, by decide⟩

/-! ## Loss of the connection -/

/-- With the main loop running, the disconnect callback quits the loop and
leaves `exit_code` as it was, so `main` returns whatever `exit_code` held
before the connection was lost. -/
theorem crmadmin_ipc_connection_destroy_active_loop (s : AdminState) (rest : List Event)
    (hloop : s.mainloop = some true) (hrun : s.exited = none) :
    (g_main_loop_iterate s (.destroy :: rest)).mainloop = some false ∧
    (g_main_loop_iterate s (.destroy :: rest)).exit_code = s.exit_code ∧
    main_return (g_main_loop_iterate s (.destroy :: rest)) = some s.exit_code := by
  have hstep : g_main_loop_iterate s (.destroy :: rest) = crmadmin_ipc_connection_destroy s := by
    rw [g_main_loop_iterate]
    simp only [hrun, hloop, Option.isSome_none, Bool.false_eq_true, if_false, if_true]
    apply g_main_loop_iterate_stopped
    right
    simp [dispatch, crmadmin_ipc_connection_destroy, g_main_loop_quit, AdminState.emit, hloop]
  rw [hstep]
  simp [crmadmin_ipc_connection_destroy, g_main_loop_quit, AdminState.emit, hloop, hrun,
    main_return]

/-- C11, evaluated on the code.  Before any main loop exists the disconnect
callback ends the process with `CRM_EX_DISCONNECT`, as claimed.  But when
`crmadmin -S node1` is waiting in its main loop and the connection is lost, the
loop is quit with `exit_code` untouched and `main` returns `CRM_EX_OK`: the
process ends with the success status, not with a non-success one. -/
theorem crmadmin_ipc_connection_destroy_exits_ok_in_loop :
    AdminState.init.mainloop = none ∧
    (crmadmin_ipc_connection_destroy AdminState.init).exited = some .CRM_EX_DISCONNECT ∧
    waitingForStatus.mainloop = some true ∧
    waitingForStatus.exited = none ∧
    (crmadmin_ipc_connection_destroy waitingForStatus).mainloop = some false ∧
    (crmadmin_ipc_connection_destroy waitingForStatus).exit_code = .CRM_EX_OK ∧
    (main envLive [.destroy] (parse_options [.S "node1"])).1 = some .CRM_EX_OK ∧
    (main envLive [.destroy] (parse_options [.D])).1 = some .CRM_EX_OK := by
  decide

/-! ## Timeout sources -/

end Pacemaker
